import Mathlib

/-!
Verification development for the k8s_helper tool-calling orchestration engine.

The definitions below are a shallow embedding of the Python sources:
  * `tools.py` — the command executors `run_kubectl_impl`, `run_helm_impl`
    and the Grafana HTTP adapter `grafana_api_request_impl`;
  * `main_no_fm.py` — the conversation loop `chat_with_early_stop_streaming`,
    tool dispatch `handle_tool_call`, the early-stop evaluator call
    `should_stop_early` and `default_early_stop_evaluation`.

External effects (process execution, HTTP, the three model clients) are
modelled as oracle inputs: a `ProcOutcome` stands for what the spawned
process did, an `HttpOutcome` for what the HTTP layer did, and the model
clients are function parameters.  Python exceptions are modelled with
`Except`/`Option`: a raised exception is an `.error` value that propagates
exactly where the Python exception would propagate.
-/

set_option autoImplicit false

namespace K8sHelper

/-! ## Python byte strings and strict UTF-8 decoding

`bytes.decode("utf-8")` in Python uses strict error handling: any invalid
byte sequence raises `UnicodeDecodeError`.  A byte string is modelled as a
list of naturals (each < 256); `utf8Decode` returns `none` exactly when
Python would raise. -/

/-- Strict UTF-8 decoder.  Accepts exactly the well-formed encodings
(rejecting overlong forms, surrogates, and code points above U+10FFFF),
mirroring CPython's strict `bytes.decode("utf-8")`. -/
def utf8Decode : List Nat → Option (List Char)
  | [] => some []
  | b :: bs =>
    if b ≤ 0x7F then
      (utf8Decode bs).map (fun cs => Char.ofNat b :: cs)
    else if 0xC2 ≤ b ∧ b ≤ 0xDF then
      match bs with
      | b1 :: bs1 =>
        if 0x80 ≤ b1 ∧ b1 ≤ 0xBF then
          (utf8Decode bs1).map (fun cs =>
            Char.ofNat ((b - 0xC0) * 0x40 + (b1 - 0x80)) :: cs)
        else none
      | [] => none
    else if 0xE0 ≤ b ∧ b ≤ 0xEF then
      match bs with
      | b1 :: b2 :: bs2 =>
        if (0x80 ≤ b1 ∧ b1 ≤ 0xBF) ∧ (0x80 ≤ b2 ∧ b2 ≤ 0xBF)
            ∧ (b = 0xE0 → 0xA0 ≤ b1) ∧ (b = 0xED → b1 ≤ 0x9F) then
          (utf8Decode bs2).map (fun cs =>
            Char.ofNat ((b - 0xE0) * 0x1000 + (b1 - 0x80) * 0x40 + (b2 - 0x80)) :: cs)
        else none
      | _ => none
    else if 0xF0 ≤ b ∧ b ≤ 0xF4 then
      match bs with
      | b1 :: b2 :: b3 :: bs3 =>
        if (0x80 ≤ b1 ∧ b1 ≤ 0xBF) ∧ (0x80 ≤ b2 ∧ b2 ≤ 0xBF) ∧ (0x80 ≤ b3 ∧ b3 ≤ 0xBF)
            ∧ (b = 0xF0 → 0x90 ≤ b1) ∧ (b = 0xF4 → b1 ≤ 0x8F) then
          (utf8Decode bs3).map (fun cs =>
            Char.ofNat ((b - 0xF0) * 0x40000 + (b1 - 0x80) * 0x1000
              + (b2 - 0x80) * 0x40 + (b3 - 0x80)) :: cs)
        else none
      | _ => none
    else none

/-- Models `stdout_bytes.decode("utf-8") if stdout_bytes else ""` from
`tools.py`: the empty byte string is falsy, so it yields `""` without a
decode; otherwise a strict decode runs, `none` standing for a raised
`UnicodeDecodeError`. -/
def pyDecodeOutput (bs : List Nat) : Option String :=
  if bs = [] then some "" else (utf8Decode bs).map String.mk

/-! ## Shell-word tokenization (`shlex.split`)

`run_kubectl_impl`/`run_helm_impl` normalize a string `args` value with
`shlex.split(args)` (POSIX mode): whitespace separates tokens, single
quotes are literal, double quotes allow `\"` and `\\` escapes, a backslash
outside quotes escapes the next character, and an unterminated quote or a
trailing escape raises `ValueError` (modelled as `none`). -/

inductive ShlexMode where
  | normal
  | single
  | double
  deriving DecidableEq

/-- Is `c` one of the `shlex` whitespace characters (space, tab, CR, LF)? -/
def shlexIsWs (c : Char) : Bool := c = ' ' ∨ c = '\t' ∨ c = '\r' ∨ c = '\n'

/-- Core state machine of POSIX `shlex.split`.  `cur = some t` means a token
`t` is being accumulated (possibly empty, e.g. from `""`); `acc` holds the
finished tokens.  The fuel argument only serves termination: every step
consumes at least one input character, so `input.length + 1` fuel is always
enough. -/
def shlexCore : Nat → List Char → ShlexMode → Option String → List String →
    Option (List String)
  | _, [], mode, cur, acc =>
    match mode with
    | .normal => some (acc ++ cur.toList)
    | _ => none
  | 0, _ :: _, _, _, _ => none
  | fuel + 1, c :: rest, .normal, cur, acc =>
    if shlexIsWs c then
      match cur with
      | some t => shlexCore fuel rest .normal none (acc ++ [t])
      | none => shlexCore fuel rest .normal none acc
    else if c = '\'' then shlexCore fuel rest .single (some (cur.getD "")) acc
    else if c = '"' then shlexCore fuel rest .double (some (cur.getD "")) acc
    else if c = '\\' then
      match rest with
      | [] => none
      | c2 :: rest2 => shlexCore fuel rest2 .normal (some ((cur.getD "").push c2)) acc
    else shlexCore fuel rest .normal (some ((cur.getD "").push c)) acc
  | fuel + 1, c :: rest, .single, cur, acc =>
    if c = '\'' then shlexCore fuel rest .normal cur acc
    else shlexCore fuel rest .single (some ((cur.getD "").push c)) acc
  | fuel + 1, c :: rest, .double, cur, acc =>
    if c = '"' then shlexCore fuel rest .normal cur acc
    else if c = '\\' then
      match rest with
      | [] => none
      | c2 :: rest2 =>
        if c2 = '"' ∨ c2 = '\\' then
          shlexCore fuel rest2 .double (some ((cur.getD "").push c2)) acc
        else
          shlexCore fuel rest2 .double (some (((cur.getD "").push '\\').push c2)) acc
    else shlexCore fuel rest .double (some ((cur.getD "").push c)) acc

/-- Models `shlex.split(s)` (POSIX mode); `none` models the `ValueError`
raised on an unterminated quote or trailing escape character. -/
def shlexSplit (s : String) : Option (List String) :=
  shlexCore (s.length + 1) s.data .normal none []

/-! ## Python string helpers -/

/-- The characters stripped by Python `str.lstrip()` with no argument
(ASCII whitespace; the full Unicode whitespace set is approximated by its
ASCII members, which covers every byte sequence a CLI tool emits as
leading whitespace). -/
def pyIsSpace (c : Char) : Bool :=
  c = ' ' ∨ c = '\t' ∨ c = '\n' ∨ c = '\r' ∨ c = '\x0b' ∨ c = '\x0c'

def lstripChars : List Char → List Char
  | [] => []
  | c :: cs => if pyIsSpace c then lstripChars cs else c :: cs

/-- Models `s.lstrip()` followed by `startswith("{") or startswith("[")`
from the JSON-detection heuristic in `tools.py`. -/
def looksLikeJson (s : String) : Bool :=
  match lstripChars s.data with
  | c :: _ => (c == '{') || (c == '[')
  | [] => false

/-! ## Strict JSON parsing (`json.loads`)

A model of Python's `json.loads`.  Numeric literals are kept as their
source text (`Jsonv.num`) since nothing in the repository inspects parsed
numeric values; `json.loads` also accepts the non-standard constants
`NaN`, `Infinity` and `-Infinity`, which are modelled as `num` literals.
A `none` result models a raised `json.JSONDecodeError`. -/

inductive Jsonv where
  | null
  | bool (b : Bool)
  | num (lit : String)
  | str (s : String)
  | arr (elems : List Jsonv)
  | obj (members : List (String × Jsonv))

/-- JSON structural whitespace accepted between tokens by `json.loads`. -/
def skipWsJ : List Char → List Char
  | [] => []
  | c :: cs => if c = ' ' ∨ c = '\t' ∨ c = '\n' ∨ c = '\r' then skipWsJ cs else c :: cs

def hexVal (c : Char) : Option Nat :=
  if '0' ≤ c ∧ c ≤ '9' then some (c.toNat - '0'.toNat)
  else if 'a' ≤ c ∧ c ≤ 'f' then some (c.toNat - 'a'.toNat + 10)
  else if 'A' ≤ c ∧ c ≤ 'F' then some (c.toNat - 'A'.toNat + 10)
  else none

/-- Body of a JSON string literal, after the opening quote.  Strict mode:
unescaped control characters are rejected; the recognised escapes are those
of the JSON grammar.  (Surrogate-pair combination of two `\uXXXX` escapes
is not reconstructed; each escape yields one code unit, which is enough
for every claim, none of which inspects decoded string contents.) -/
def parseStringBody : Nat → List Char → String → Option (String × List Char)
  | 0, _, _ => none
  | _ + 1, [], _ => none
  | fuel + 1, c :: cs, acc =>
    if c = '"' then some (acc, cs)
    else if c = '\\' then
      match cs with
      | [] => none
      | e :: cs2 =>
        if e = '"' then parseStringBody fuel cs2 (acc.push '"')
        else if e = '\\' then parseStringBody fuel cs2 (acc.push '\\')
        else if e = '/' then parseStringBody fuel cs2 (acc.push '/')
        else if e = 'b' then parseStringBody fuel cs2 (acc.push '\x08')
        else if e = 'f' then parseStringBody fuel cs2 (acc.push '\x0c')
        else if e = 'n' then parseStringBody fuel cs2 (acc.push '\n')
        else if e = 'r' then parseStringBody fuel cs2 (acc.push '\r')
        else if e = 't' then parseStringBody fuel cs2 (acc.push '\t')
        else if e = 'u' then
          match cs2 with
          | h1 :: h2 :: h3 :: h4 :: cs3 =>
            match hexVal h1, hexVal h2, hexVal h3, hexVal h4 with
            | some v1, some v2, some v3, some v4 =>
              parseStringBody fuel cs3 (acc.push (Char.ofNat (((v1 * 16 + v2) * 16 + v3) * 16 + v4)))
            | _, _, _, _ => none
          | _ => none
        else none
    else if c.toNat < 0x20 then none
    else parseStringBody fuel cs (acc.push c)

/-- Integer part of a JSON number: `0`, or a nonzero digit followed by
digits (leading zeros rejected, as in the `json.loads` grammar). -/
def parseIntPart : List Char → Option (List Char × List Char)
  | '0' :: rest => some (['0'], rest)
  | c :: rest =>
    if c.isDigit then some ((c :: rest).span Char.isDigit) else none
  | [] => none

/-- A JSON numeric literal (sign, integer part, optional fraction and
exponent), returned as its source text. -/
def parseNumberLit (cs : List Char) : Option (Jsonv × List Char) :=
  let (negPart, cs1) : List Char × List Char :=
    match cs with
    | '-' :: r => (['-'], r)
    | _ => ([], cs)
  match parseIntPart cs1 with
  | none => none
  | some (ip, cs2) =>
    let (fp, cs3) : List Char × List Char :=
      match cs2 with
      | '.' :: r =>
        match r.span Char.isDigit with
        | ([], _) => ([], cs2)
        | (ds, r2) => ('.' :: ds, r2)
      | _ => ([], cs2)
    let (ep, cs4) : List Char × List Char :=
      match cs3 with
      | c :: r =>
        if c = 'e' ∨ c = 'E' then
          match r with
          | s :: r2 =>
            if s = '+' ∨ s = '-' then
              match r2.span Char.isDigit with
              | ([], _) => ([], cs3)
              | (ds, r3) => (c :: s :: ds, r3)
            else
              match r.span Char.isDigit with
              | ([], _) => ([], cs3)
              | (ds, r3) => (c :: ds, r3)
          | [] => ([], cs3)
        else ([], cs3)
      | [] => ([], cs3)
    some (.num (String.mk (negPart ++ ip ++ fp ++ ep)), cs4)

mutual

/-- One JSON value starting at the first (non-whitespace) character of the
input; returns the value and the unconsumed remainder.  Fuel bounds the
recursion depth; `jsonLoads` supplies more fuel than any input can use. -/
def parseJValue : Nat → List Char → Option (Jsonv × List Char)
  | 0, _ => none
  | fuel + 1, cs =>
    match cs with
    | [] => none
    | '{' :: rest =>
      match skipWsJ rest with
      | '}' :: rest2 => some (.obj [], rest2)
      | cs2 =>
        match parseJMembers fuel cs2 with
        | some (ms, rest2) => some (.obj ms, rest2)
        | none => none
    | '[' :: rest =>
      match skipWsJ rest with
      | ']' :: rest2 => some (.arr [], rest2)
      | cs2 =>
        match parseJElems fuel cs2 with
        | some (vs, rest2) => some (.arr vs, rest2)
        | none => none
    | '"' :: rest =>
      match parseStringBody (rest.length + 1) rest "" with
      | some (s, rest2) => some (.str s, rest2)
      | none => none
    | 't' :: 'r' :: 'u' :: 'e' :: rest => some (.bool true, rest)
    | 'f' :: 'a' :: 'l' :: 's' :: 'e' :: rest => some (.bool false, rest)
    | 'n' :: 'u' :: 'l' :: 'l' :: rest => some (.null, rest)
    | 'N' :: 'a' :: 'N' :: rest => some (.num "NaN", rest)
    | 'I' :: 'n' :: 'f' :: 'i' :: 'n' :: 'i' :: 't' :: 'y' :: rest =>
      some (.num "Infinity", rest)
    | '-' :: 'I' :: 'n' :: 'f' :: 'i' :: 'n' :: 'i' :: 't' :: 'y' :: rest =>
      some (.num "-Infinity", rest)
    | other => parseNumberLit other

/-- Nonempty member list of a JSON object, up to and including the closing
brace. -/
def parseJMembers : Nat → List Char → Option (List (String × Jsonv) × List Char)
  | 0, _ => none
  | fuel + 1, cs =>
    match cs with
    | '"' :: rest =>
      match parseStringBody (rest.length + 1) rest "" with
      | some (k, rest2) =>
        match skipWsJ rest2 with
        | ':' :: rest3 =>
          match parseJValue fuel (skipWsJ rest3) with
          | some (v, rest4) =>
            match skipWsJ rest4 with
            | ',' :: rest5 =>
              match parseJMembers fuel (skipWsJ rest5) with
              | some (ms, rest6) => some ((k, v) :: ms, rest6)
              | none => none
            | '}' :: rest5 => some ([(k, v)], rest5)
            | _ => none
          | none => none
        | _ => none
      | none => none
    | _ => none

/-- Nonempty element list of a JSON array, up to and including the closing
bracket. -/
def parseJElems : Nat → List Char → Option (List Jsonv × List Char)
  | 0, _ => none
  | fuel + 1, cs =>
    match parseJValue fuel cs with
    | some (v, rest) =>
      match skipWsJ rest with
      | ',' :: rest2 =>
        match parseJElems fuel (skipWsJ rest2) with
        | some (vs, rest3) => some (v :: vs, rest3)
        | none => none
      | ']' :: rest2 => some ([v], rest2)
      | _ => none
    | none => none

end

/-- Models `json.loads(s)`: parse one JSON document with nothing but
whitespace around it; `none` models a raised `json.JSONDecodeError`. -/
def jsonLoads (s : String) : Option Jsonv :=
  match parseJValue (s.length + 1) (skipWsJ s.data) with
  | some (v, rest) => if skipWsJ rest = [] then some v else none
  | none => none

/-! ## Data model (`interfaces.py`) and the command executors (`tools.py`) -/

/-- The immutable result record produced by every tool (`interfaces.py`).
The `json` field holds the best-effort parsed stdout, or `none`. -/
structure ExecutionResult where
  cmd : List String
  returncode : Int
  stdout : String
  stderr : String
  json : Option Jsonv

/-- The `args` parameter of `run_kubectl`/`run_helm`:
`Union[str, Sequence[str]]`. -/
inductive PyArgs where
  | str (s : String)
  | list (l : List String)

/-- Models the `args` normalization in `tools.py`: a string is tokenized
with `shlex.split`, a sequence is copied with `list(args)`. -/
def normalizeArgs : PyArgs → Option (List String)
  | .str s => shlexSplit s
  | .list l => some l

/-- Models the `if namespace: cmd += ["--namespace", namespace]` pattern:
the flag pair is appended only when the optional value is Python-truthy,
i.e. present and non-empty. -/
def optFlag (flag : String) : Option String → List String
  | some v => if v = "" then [] else [flag, v]
  | none => []

/-- Exceptions the executors can raise (`tools.py` docstrings):
`FileNotFoundError`, `subprocess.TimeoutExpired`,
`subprocess.CalledProcessError`, plus `UnicodeDecodeError` from the strict
UTF-8 decode and `ValueError` from `shlex.split`. -/
inductive ToolError where
  | fileNotFound (msg : String)
  | timeoutExpired (cmd : List String) (timeout : Option Rat)
  | calledProcessError (returncode : Int) (cmd : List String) (stdout stderr : String)
  | unicodeDecodeError
  | valueError

/-- Oracle for what the spawned process did: either the `asyncio.wait_for`
deadline elapsed, or the process completed with an exit code and raw
stdout/stderr byte strings. -/
inductive ProcOutcome where
  | timedOut
  | completed (returncode : Int) (stdoutBytes stderrBytes : List Nat)

/-- Shallow embedding of `run_kubectl_impl` from `tools.py`.
`kubectlOnPath` models `shutil.which("kubectl")`; `proc` models the
spawned process's behaviour.  Steps, in source order: binary resolution
(`FileNotFoundError` if absent), args normalization, command construction
with `--namespace`/`--context`/`--kubeconfig` flag pairs, process
execution with timeout (`TimeoutExpired` raised after kill+wait), strict
UTF-8 decoding of captured output, the best-effort JSON parse, the
`check` test (`CalledProcessError`), and finally the `ExecutionResult`. -/
def run_kubectl_impl (kubectlOnPath : Option String) (args : PyArgs)
    (ns ctx kubeconfig : Option String) (timeout : Option Rat)
    (capture_output check : Bool) (proc : ProcOutcome) :
    Except ToolError ExecutionResult :=
  match kubectlOnPath with
  | none => .error (.fileNotFound "kubectl not found on PATH")
  | some kubectl_path =>
    match normalizeArgs args with
    | none => .error .valueError
    | some arg_list =>
      let cmd := kubectl_path :: arg_list
        ++ optFlag "--namespace" ns
        ++ optFlag "--context" ctx
        ++ optFlag "--kubeconfig" kubeconfig
      match proc with
      | .timedOut => .error (.timeoutExpired cmd timeout)
      | .completed returncode stdoutBytes stderrBytes =>
        if capture_output then
          match pyDecodeOutput stdoutBytes with
          | none => .error .unicodeDecodeError
          | some stdout =>
            match pyDecodeOutput stderrBytes with
            | none => .error .unicodeDecodeError
            | some stderr =>
              let parsed :=
                if stdout ≠ "" ∧ looksLikeJson stdout then jsonLoads stdout else none
              if check ∧ returncode ≠ 0 then
                .error (.calledProcessError returncode cmd stdout stderr)
              else
                .ok { cmd := cmd, returncode := returncode, stdout := stdout,
                      stderr := stderr, json := parsed }
        else
          if check ∧ returncode ≠ 0 then
            .error (.calledProcessError returncode cmd "" "")
          else
            .ok { cmd := cmd, returncode := returncode, stdout := "", stderr := "",
                  json := none }

/-- Shallow embedding of `run_helm_impl` from `tools.py`.  Identical
structure to `run_kubectl_impl` except for the binary, the flag set/order
(`--namespace`, `--kube-context`, `--kubeconfig`, `--repository-config`,
`--registry-config`) and the extra `workdir`/`input_data` parameters
(which only affect the spawned process, not the result record). -/
def run_helm_impl (helmOnPath : Option String) (args : PyArgs)
    (ns ctx kubeconfig repo_config registry_config : Option String)
    (timeout : Option Rat) (capture_output check : Bool)
    (workdir input_data : Option String) (proc : ProcOutcome) :
    Except ToolError ExecutionResult :=
  match helmOnPath with
  | none => .error (.fileNotFound "helm not found on PATH")
  | some helm_path =>
    match normalizeArgs args with
    | none => .error .valueError
    | some arg_list =>
      let cmd := helm_path :: arg_list
        ++ optFlag "--namespace" ns
        ++ optFlag "--kube-context" ctx
        ++ optFlag "--kubeconfig" kubeconfig
        ++ optFlag "--repository-config" repo_config
        ++ optFlag "--registry-config" registry_config
      match proc with
      | .timedOut => .error (.timeoutExpired cmd timeout)
      | .completed returncode stdoutBytes stderrBytes =>
        if capture_output then
          match pyDecodeOutput stdoutBytes with
          | none => .error .unicodeDecodeError
          | some stdout =>
            match pyDecodeOutput stderrBytes with
            | none => .error .unicodeDecodeError
            | some stderr =>
              let parsed :=
                if stdout ≠ "" ∧ looksLikeJson stdout then jsonLoads stdout else none
              if check ∧ returncode ≠ 0 then
                .error (.calledProcessError returncode cmd stdout stderr)
              else
                .ok { cmd := cmd, returncode := returncode, stdout := stdout,
                      stderr := stderr, json := parsed }
        else
          if check ∧ returncode ≠ 0 then
            .error (.calledProcessError returncode cmd "" "")
          else
            .ok { cmd := cmd, returncode := returncode, stdout := "", stderr := "",
                  json := none }

/-! ## The Grafana HTTP adapter (`grafana_api_request_impl` in `tools.py`)

Everything effectful in the Python function lives inside one `try` block
whose final handler is `except Exception`, so every exception raised by
the HTTP layer is mapped to a returned `ExecutionResult`; the oracle
`HttpOutcome` enumerates the possible behaviours of that block.  Header
preparation before the `try` only manipulates well-typed dictionaries and
strings and cannot raise, hence the embedding is a total function. -/

/-- What the `aiohttp` request did: an HTTP response (with status, reason
phrase, body text, and whether the `Content-Type` lets `response.json()`
attempt a parse), a raised `aiohttp.ClientError`, a raised
`asyncio.TimeoutError`, or any other raised exception. -/
inductive HttpOutcome where
  | response (status : Nat) (reason : String) (body : String) (contentTypeIsJson : Bool)
  | clientError (msg : String)
  | timedOut
  | otherError (msg : String)

/-- Models `str.upper()` for the ASCII method names used here. -/
def pyUpper (s : String) : String := s.map Char.toUpper

/-- Models `grafana_url.rstrip("/")`. -/
def rstripSlash (s : String) : String :=
  String.mk ((s.data.reverse.dropWhile (fun c => c = '/')).reverse)

/-- Models `endpoint.lstrip("/")`. -/
def lstripSlash (s : String) : String :=
  String.mk (s.data.dropWhile (fun c => c = '/'))

/-- Models the url construction in `grafana_api_request_impl`. -/
def grafanaUrl (grafana_url endpoint : String) : String :=
  rstripSlash grafana_url ++ "/" ++ lstripSlash endpoint

/-- Models the command-representation list built for the result record.
`params` and `json_data` are carried as their Python `str()` rendering;
`none` models a falsy (absent or empty) value, for which no entry is
appended. -/
def grafanaCmd (method url : String) (params json_data : Option String) : List String :=
  [pyUpper method, url, "auth=session_cookie"]
    ++ (match params with | some p => ["params=" ++ p] | none => [])
    ++ (match json_data with | some j => ["json_data=" ++ j] | none => [])

/-- Models the response-body JSON recovery: `await response.json()` parses
the body only when the content type allows it (otherwise it raises
`ContentTypeError`); on any parse failure the code falls back to the
leading-character heuristic followed by `json.loads`, and swallows a
second failure. -/
def grafanaParseJson (body : String) (contentTypeIsJson : Bool) : Option Jsonv :=
  if body = "" then none
  else
    match (if contentTypeIsJson then jsonLoads body else none) with
    | some j => some j
    | none => if looksLikeJson body then jsonLoads body else none

/-- First binding for a key in a parsed JSON object.  (Python's `dict`
keeps the last duplicate key; the objects inspected here are Grafana error
payloads without duplicate keys, where first and last coincide.) -/
def jsonObjLookup : List (String × Jsonv) → String → Option Jsonv
  | [], _ => none
  | (k, v) :: rest, key => if k = key then some v else jsonObjLookup rest key

/-- Rendering of a JSON value interpolated into the stderr diagnostic
(`f"... - {parsed_json['message']}"`).  Scalars render as Python would
print them; container values (which Grafana error payloads do not use in
the `message`/`error` fields) render as a placeholder. -/
def jsonvDisplay : Jsonv → String
  | .null => "None"
  | .bool true => "True"
  | .bool false => "False"
  | .num lit => lit
  | .str s => s
  | .arr _ => "<list>"
  | .obj _ => "<dict>"

/-- Rendering of the timeout value in the timeout diagnostic. -/
def timeoutRepr : Option Rat → String
  | some q => toString q
  | none => "None"

/-- Shallow embedding of `grafana_api_request_impl` from `tools.py`.
Total by construction: each failure constructor of `HttpOutcome` is mapped
to a returned `ExecutionResult` exactly as the corresponding `except`
clause does, and an HTTP error status is reported through `returncode` and
`stderr`, never raised. -/
def grafana_api_request_impl (grafana_url : String) (endpoint method : String)
    (params json_data : Option String) (timeout : Option Rat)
    (outcome : HttpOutcome) : ExecutionResult :=
  let url := grafanaUrl grafana_url endpoint
  let cmd := grafanaCmd method url params json_data
  match outcome with
  | .clientError msg =>
    { cmd := cmd, returncode := 1, stdout := "",
      stderr := "HTTP Client Error: " ++ msg, json := none }
  | .timedOut =>
    { cmd := cmd, returncode := 1, stdout := "",
      stderr := "Request timeout after " ++ timeoutRepr timeout ++ " seconds",
      json := none }
  | .otherError msg =>
    { cmd := cmd, returncode := 1, stdout := "",
      stderr := "Unexpected error: " ++ msg, json := none }
  | .response status reason body contentTypeIsJson =>
    let parsed := grafanaParseJson body contentTypeIsJson
    let is_error := 400 ≤ status
    let stderr_content :=
      if is_error then
        "HTTP " ++ Nat.repr status ++ ": " ++ reason ++
          (match parsed with
           | some (.obj members) =>
             (match jsonObjLookup members "message" with
              | some v => " - " ++ jsonvDisplay v
              | none =>
                match jsonObjLookup members "error" with
                | some v => " - " ++ jsonvDisplay v
                | none => "")
           | _ => "")
      else ""
    { cmd := cmd, returncode := if is_error then (status : Int) else 0,
      stdout := body, stderr := stderr_content, json := parsed }

/-! ## The conversation loop (`chat_with_early_stop_streaming` in `main_no_fm.py`)

The loop is modelled as a function of three oracles:
  * `model`    — the primary model client: maps the current message list to
                 either a plain text response or a tool-call request list
                 (`response.choices[0].finish_reason == "tool_calls"`);
  * `execTool` — the effect of `get_tool_by_name(name)(**json.loads(args))`
                 for a registered tool: an `ExecutionResult`, or a raised
                 executor exception;
  * `evalModel`— the effect of `should_stop_early`: a validated
                 `EarlyStopEvaluation`, or `.error ()` standing for the
                 pydantic `ValidationError` raised by
                 `EarlyStopEvaluation.model_validate_json` on a response
                 that is not valid structured output.

Fuel bounds the number of iterations we observe: `none` means the `while
not done` loop was still running after `fuel` iterations (the source has
no step limit of its own).  The trace records one event per model-client
invocation or default substitution, which is what the call-count claims
quantify over.  `asyncio.gather(tool_task, early_stop_evaluator)` re-raises
the first exception of its children; the model resolves the tool task
first, which only fixes which exception wins when both fail — in either
order the turn aborts.  Serialization of an `ExecutionResult` into the
tool message (`result.model_dump_json()`) and the read-back
(`json.loads(results[0]["content"])["stdout"]`) are modelled by carrying
the record itself in the message, since the JSON round-trip of a pydantic
model preserves every field. -/

structure ToolCall where
  id : String
  name : String
  arguments : String
  deriving DecidableEq, Inhabited

/-- The `EarlyStopEvaluation` schema from `interfaces.py`. -/
structure EarlyStopEvaluation where
  should_stop : Bool
  reasoning : String
  deriving DecidableEq

/-- `DEFAULT_EARLY_STOPPING_REASONING` from `main_no_fm.py`: the sentinel
distinguishing "no evaluation ran" from "evaluation ran and said no". -/
def DEFAULT_EARLY_STOPPING_REASONING : String := "By default"

/-- `default_early_stop_evaluation` from `main_no_fm.py`. -/
def default_early_stop_evaluation : EarlyStopEvaluation :=
  { should_stop := false, reasoning := DEFAULT_EARLY_STOPPING_REASONING }

/-- Conversation messages.  Tool results carry the `ExecutionResult` whose
JSON dump is the Python message content, correlated by the call id. -/
inductive Message where
  | system (content : String)
  | user (content : String)
  | assistantText (content : String)
  | assistantToolCalls (calls : List ToolCall)
  | toolResult (result : ExecutionResult) (tool_call_id : String)

/-- A primary-model response: plain text, or a tool-call request list. -/
inductive PrimaryResponse where
  | text (content : String)
  | toolCalls (calls : List ToolCall)

/-- Exceptions that escape `chat_with_early_stop_streaming` and abort the
turn. -/
inductive TurnError where
  | unknownTool (name : String)
  | toolFailure (e : ToolError)
  | malformedEvaluatorOutput

/-- Events of one turn, for call-count reasoning: a primary-model call at
a given step, an early-stop evaluator model call, or the substitution of
the default evaluation without any model call. -/
inductive Ev where
  | primaryModelCall (step : Nat)
  | evalModelCall (step : Nat) (numToolCalls : Nat)
  | defaultEvalUsed (step : Nat) (numToolCalls : Nat)
  deriving DecidableEq

/-- The registered tool names (`get_tool_by_name` in `main_no_fm.py`):
any other name raises `ValueError(f"Tool ... not found")`. -/
def knownToolName (name : String) : Bool :=
  name == "run_kubectl" || name == "run_helm"

/-- Shallow embedding of `handle_tool_call`: dispatch each requested call
in order; an unknown name or a raised executor exception propagates out of
the whole call (there is no `try` in the source), abandoning the remaining
calls. -/
def handle_tool_call (execTool : ToolCall → Except ToolError ExecutionResult) :
    List ToolCall → Except TurnError (List Message)
  | [] => .ok []
  | tc :: rest =>
    if knownToolName tc.name then
      match execTool tc with
      | .error e => .error (.toolFailure e)
      | .ok r =>
        match handle_tool_call execTool rest with
        | .error e => .error e
        | .ok ms => .ok (.toolResult r tc.id :: ms)
    else .error (.unknownTool tc.name)

/-- The early-stop final answer: `f"\x60\x60\x60\n{stdout_content}\n\x60\x60\x60"`. -/
def fencedCodeBlock (stdout_content : String) : String :=
  "```\n" ++ stdout_content ++ "\n```"

/-- `json.loads(results[0]["content"])["stdout"]`: the stdout of the first
tool-result message. -/
def firstResultStdout : List Message → String
  | .toolResult r _ :: _ => r.stdout
  | _ => ""

/-- Shallow embedding of the `while not done` loop of
`chat_with_early_stop_streaming`.  `stepPrev` is the value of `step`
before the `step += 1` at the top of the iteration (0 on entry), `trace`
the events so far.  Per iteration, in source order: the primary model call;
on a tool-call response, the choice between a real evaluator call (iff
`step == 1 and len(tool_calls) == 1`) and the default evaluation; tool
execution; the join (either exception aborts the turn); then either the
early-stop return of the fenced first stdout, or appending the assistant
message and the tool results and looping. -/
def chatLoop (model : List Message → PrimaryResponse)
    (execTool : ToolCall → Except ToolError ExecutionResult)
    (evalModel : ToolCall → Except Unit EarlyStopEvaluation) :
    Nat → Nat → List Message → List Ev →
    Option (Except TurnError String × List Ev)
  | 0, _, _, _ => none
  | fuel + 1, stepPrev, messages, trace =>
    match model messages with
    | .text content => some (.ok content, trace ++ [Ev.primaryModelCall (stepPrev + 1)])
    | .toolCalls tool_calls =>
      let evalRes : Except Unit EarlyStopEvaluation :=
        if stepPrev + 1 = 1 ∧ tool_calls.length = 1 then evalModel tool_calls.headI
        else .ok default_early_stop_evaluation
      let evalEv : Ev :=
        if stepPrev + 1 = 1 ∧ tool_calls.length = 1 then
          Ev.evalModelCall (stepPrev + 1) tool_calls.length
        else Ev.defaultEvalUsed (stepPrev + 1) tool_calls.length
      let trace2 := trace ++ [Ev.primaryModelCall (stepPrev + 1), evalEv]
      match handle_tool_call execTool tool_calls with
      | .error e => some (.error e, trace2)
      | .ok results =>
        match evalRes with
        | .error _ => some (.error TurnError.malformedEvaluatorOutput, trace2)
        | .ok evaluation =>
          if evaluation.should_stop then
            some (.ok (fencedCodeBlock (firstResultStdout results)), trace2)
          else
            chatLoop model execTool evalModel fuel (stepPrev + 1)
              (messages ++ [Message.assistantToolCalls tool_calls] ++ results) trace2

/-! ## Loop trace lemmas

Shared lemmas about `chatLoop` traces, used by the conversation-loop
claims below. -/

/-- Well-formedness of a loop event: an evaluator model call may only be
recorded at step 1 with tool-call count 1; a default-evaluation
substitution only at any other step/count combination. -/
def evalEventOk : Ev → Prop
  | .evalModelCall s c => s = 1 ∧ c = 1
  | .defaultEvalUsed s c => ¬(s = 1 ∧ c = 1)
  | .primaryModelCall _ => True

/-- A completed run only ever appends to its starting trace. -/
theorem chatLoop_trace_mono (model : List Message → PrimaryResponse)
    (execTool : ToolCall → Except ToolError ExecutionResult)
    (evalModel : ToolCall → Except Unit EarlyStopEvaluation) :
    ∀ (fuel stepPrev : Nat) (messages : List Message) (trace : List Ev)
      (res : Except TurnError String) (tr : List Ev),
      chatLoop model execTool evalModel fuel stepPrev messages trace = some (res, tr) →
      trace ⊆ tr := by
  intro fuel
  induction fuel with
  | zero =>
    intro stepPrev messages trace res tr h
    exact absurd h (by simp [chatLoop])
  | succ fuel ih =>
    intro stepPrev messages trace res tr h
    simp only [chatLoop] at h
    cases hm : model messages with
    | text content =>
      simp only [hm, Option.some.injEq, Prod.mk.injEq] at h
      obtain ⟨h1, h2⟩ := h
      subst h2
      exact List.subset_append_left _ _
    | toolCalls tool_calls =>
      simp only [hm] at h
      by_cases hc : stepPrev + 1 = 1 ∧ tool_calls.length = 1
      all_goals first
        | simp only [if_pos hc] at h
        | simp only [if_neg hc] at h
      all_goals (
        cases hh : handle_tool_call execTool tool_calls with
        | error e =>
          simp only [hh, Option.some.injEq, Prod.mk.injEq] at h
          obtain ⟨h1, h2⟩ := h
          subst h2
          exact List.subset_append_left _ _
        | ok results =>
          simp only [hh] at h
          first
          | (cases he : evalModel tool_calls.headI with
             | error u =>
               simp only [he, Option.some.injEq, Prod.mk.injEq] at h
               obtain ⟨h1, h2⟩ := h
               subst h2
               exact List.subset_append_left _ _
             | ok evaluation =>
               simp only [he] at h
               by_cases hs : evaluation.should_stop = true
               · simp only [if_pos hs] at h
                 simp only [Option.some.injEq, Prod.mk.injEq] at h
                 obtain ⟨h1, h2⟩ := h
                 subst h2
                 exact List.subset_append_left _ _
               · simp only [if_neg hs] at h
                 exact subset_trans (List.subset_append_left _ _)
                   (ih _ _ _ _ _ h))
          | (simp only [default_early_stop_evaluation, Bool.false_eq_true, if_false] at h
             exact subset_trans (List.subset_append_left _ _)
               (ih _ _ _ _ _ h)))

/-- Every event a completed run appends to its starting trace is
well-formed: evaluator calls only at the (step 1, one call) combination,
default substitutions only elsewhere. -/
theorem chatLoop_trace_new_ok (model : List Message → PrimaryResponse)
    (execTool : ToolCall → Except ToolError ExecutionResult)
    (evalModel : ToolCall → Except Unit EarlyStopEvaluation) :
    ∀ (fuel stepPrev : Nat) (messages : List Message) (trace : List Ev)
      (res : Except TurnError String) (tr : List Ev),
      chatLoop model execTool evalModel fuel stepPrev messages trace = some (res, tr) →
      ∀ x ∈ tr, x ∈ trace ∨ evalEventOk x := by
  intro fuel
  induction fuel with
  | zero =>
    intro stepPrev messages trace res tr h
    exact absurd h (by simp [chatLoop])
  | succ fuel ih =>
    intro stepPrev messages trace res tr h
    simp only [chatLoop] at h
    cases hm : model messages with
    | text content =>
      simp only [hm, Option.some.injEq, Prod.mk.injEq] at h
      obtain ⟨h1, h2⟩ := h
      subst h2
      intro x hx
      rcases List.mem_append.mp hx with hx1 | hx1
      · exact Or.inl hx1
      · right
        simp only [List.mem_singleton] at hx1
        subst hx1
        trivial
    | toolCalls tool_calls =>
      simp only [hm] at h
      by_cases hc : stepPrev + 1 = 1 ∧ tool_calls.length = 1
      · simp only [if_pos hc] at h
        have htail : ∀ x ∈ [Ev.primaryModelCall (stepPrev + 1),
            Ev.evalModelCall (stepPrev + 1) tool_calls.length], evalEventOk x := by
          intro x hx
          simp only [List.mem_cons, List.not_mem_nil, or_false] at hx
          rcases hx with rfl | rfl
          · trivial
          · exact hc
        cases hh : handle_tool_call execTool tool_calls with
        | error e =>
          simp only [hh, Option.some.injEq, Prod.mk.injEq] at h
          obtain ⟨h1, h2⟩ := h
          subst h2
          exact fun x hx => (List.mem_append.mp hx).imp id (htail x)
        | ok results =>
          simp only [hh] at h
          cases he : evalModel tool_calls.headI with
          | error u =>
            simp only [he, Option.some.injEq, Prod.mk.injEq] at h
            obtain ⟨h1, h2⟩ := h
            subst h2
            exact fun x hx => (List.mem_append.mp hx).imp id (htail x)
          | ok evaluation =>
            simp only [he] at h
            by_cases hs : evaluation.should_stop = true
            · simp only [if_pos hs, Option.some.injEq, Prod.mk.injEq] at h
              obtain ⟨h1, h2⟩ := h
              subst h2
              exact fun x hx => (List.mem_append.mp hx).imp id (htail x)
            · simp only [if_neg hs] at h
              intro x hx
              rcases ih _ _ _ _ _ h x hx with hx2 | hx2
              · exact (List.mem_append.mp hx2).imp id (htail x)
              · exact Or.inr hx2
      · simp only [if_neg hc] at h
        have htail : ∀ x ∈ [Ev.primaryModelCall (stepPrev + 1),
            Ev.defaultEvalUsed (stepPrev + 1) tool_calls.length], evalEventOk x := by
          intro x hx
          simp only [List.mem_cons, List.not_mem_nil, or_false] at hx
          rcases hx with rfl | rfl
          · trivial
          · exact hc
        cases hh : handle_tool_call execTool tool_calls with
        | error e =>
          simp only [hh, Option.some.injEq, Prod.mk.injEq] at h
          obtain ⟨h1, h2⟩ := h
          subst h2
          exact fun x hx => (List.mem_append.mp hx).imp id (htail x)
        | ok results =>
          simp only [hh, default_early_stop_evaluation, Bool.false_eq_true, if_false] at h
          intro x hx
          rcases ih _ _ _ _ _ h x hx with hx2 | hx2
          · exact (List.mem_append.mp hx2).imp id (htail x)
          · exact Or.inr hx2

/-- If the first primary response of a completed run requests exactly one
tool call, the evaluator model call at step 1 is in the trace. -/
theorem chatLoop_first_step_eval (model : List Message → PrimaryResponse)
    (execTool : ToolCall → Except ToolError ExecutionResult)
    (evalModel : ToolCall → Except Unit EarlyStopEvaluation)
    (fuel : Nat) (messages : List Message) (res : Except TurnError String)
    (tr : List Ev)
    (h : chatLoop model execTool evalModel fuel 0 messages [] = some (res, tr))
    (cs : List ToolCall) (hm : model messages = .toolCalls cs)
    (hlen : cs.length = 1) :
    Ev.evalModelCall 1 1 ∈ tr := by
  cases fuel with
  | zero => exact absurd h (by simp [chatLoop])
  | succ fuel =>
    simp only [chatLoop, hm, hlen, and_self, if_true] at h
    cases hh : handle_tool_call execTool cs with
    | error e =>
      simp only [hh, Option.some.injEq, Prod.mk.injEq] at h
      obtain ⟨h1, h2⟩ := h
      subst h2
      simp [hlen]
    | ok results =>
      simp only [hh] at h
      cases he : evalModel cs.headI with
      | error u =>
        simp only [he, Option.some.injEq, Prod.mk.injEq] at h
        obtain ⟨h1, h2⟩ := h
        subst h2
        simp [hlen]
      | ok evaluation =>
        simp only [he] at h
        by_cases hs : evaluation.should_stop = true
        · simp only [if_pos hs, Option.some.injEq, Prod.mk.injEq] at h
          obtain ⟨h1, h2⟩ := h
          subst h2
          simp [hlen]
        · simp only [if_neg hs] at h
          exact chatLoop_trace_mono model execTool evalModel fuel _ _ _ _ _ h
            (by simp [hlen])

/-! ## Claims about the command executors -/

/-- C5: For every call to the command executor, the resulting
`ExecutionResult`'s `cmd` field equals the resolved program path, followed
by the caller's argument list (tokenized with shell-word-splitting rules
when given as a single string, never passed through a shell), followed by
flag/value pairs for each populated optional parameter in a fixed order
(kubectl: `--namespace`, `--context`, `--kubeconfig`; helm: `--namespace`,
`--kube-context`, `--kubeconfig`, `--repository-config`,
`--registry-config`). -/
theorem C5_cmd_field_shape :
    (∀ (p : String) (args : PyArgs) (ns ctx kc : Option String) (t : Option Rat)
        (co ch : Bool) (proc : ProcOutcome) (r : ExecutionResult),
      run_kubectl_impl (some p) args ns ctx kc t co ch proc = .ok r →
      ∃ tokens, normalizeArgs args = some tokens ∧
        r.cmd = p :: tokens ++ optFlag "--namespace" ns ++ optFlag "--context" ctx
          ++ optFlag "--kubeconfig" kc) ∧
    (∀ (p : String) (args : PyArgs) (ns ctx kc rcf gcf : Option String) (t : Option Rat)
        (co ch : Bool) (wd ind : Option String) (proc : ProcOutcome) (r : ExecutionResult),
      run_helm_impl (some p) args ns ctx kc rcf gcf t co ch wd ind proc = .ok r →
      ∃ tokens, normalizeArgs args = some tokens ∧
        r.cmd = p :: tokens ++ optFlag "--namespace" ns ++ optFlag "--kube-context" ctx
          ++ optFlag "--kubeconfig" kc ++ optFlag "--repository-config" rcf
          ++ optFlag "--registry-config" gcf) := by
  constructor
  · intro p args ns ctx kc t co ch proc r h
    simp only [run_kubectl_impl] at h
    split at h
    · exact Except.noConfusion h
    next toks hn =>
      refine ⟨toks, hn, ?_⟩
      iterate 6 (all_goals try split at h)
      all_goals
        first
          | exact Except.noConfusion h
          | (rw [Except.ok.injEq] at h; subst h; simp [List.append_assoc])
  · intro p args ns ctx kc rcf gcf t co ch wd ind proc r h
    simp only [run_helm_impl] at h
    split at h
    · exact Except.noConfusion h
    next toks hn =>
      refine ⟨toks, hn, ?_⟩
      iterate 6 (all_goals try split at h)
      all_goals
        first
          | exact Except.noConfusion h
          | (rw [Except.ok.injEq] at h; subst h; simp [List.append_assoc])

/-- Witness for C5: a concrete kubectl call whose string arguments are
shell-word-split and whose `cmd` has the specified shape. -/
theorem C5_cmd_field_shape_witness :
    ∃ tokens, normalizeArgs (PyArgs.str "get pods -o json") = some tokens ∧
      (ExecutionResult.mk
          ["/usr/bin/kubectl", "get", "pods", "-o", "json", "--namespace", "default"]
          0 "" "" none).cmd
        = "/usr/bin/kubectl" :: tokens ++ optFlag "--namespace" (some "default")
          ++ optFlag "--context" none ++ optFlag "--kubeconfig" none :=
  C5_cmd_field_shape.1 "/usr/bin/kubectl" (PyArgs.str "get pods -o json")
    (some "default") none none (some 60) true false (.completed 0 [] []) _ rfl

/-- C6: For every executor call with `capture_output` true, the `json`
field of the returned `ExecutionResult` is non-empty exactly when stdout
is non-empty, the first non-whitespace character of stdout is a brace or
bracket, and strict JSON parsing of stdout succeeds; otherwise `json` is
absent, and (by the totality of the parse model, which returns `none`
where Python catches `json.JSONDecodeError`) no parse exception escapes
the call. -/
theorem C6_json_best_effort :
    (∀ (p : String) (args : PyArgs) (ns ctx kc : Option String) (t : Option Rat)
        (ch : Bool) (rc : Int) (ob eb : List Nat) (r : ExecutionResult),
      run_kubectl_impl (some p) args ns ctx kc t true ch (.completed rc ob eb) = .ok r →
      (r.json.isSome ↔
        r.stdout ≠ "" ∧ looksLikeJson r.stdout = true ∧ (jsonLoads r.stdout).isSome)) ∧
    (∀ (p : String) (args : PyArgs) (ns ctx kc rcf gcf : Option String) (t : Option Rat)
        (ch : Bool) (wd ind : Option String) (rc : Int) (ob eb : List Nat)
        (r : ExecutionResult),
      run_helm_impl (some p) args ns ctx kc rcf gcf t true ch wd ind
          (.completed rc ob eb) = .ok r →
      (r.json.isSome ↔
        r.stdout ≠ "" ∧ looksLikeJson r.stdout = true ∧ (jsonLoads r.stdout).isSome)) := by
  constructor
  · intro p args ns ctx kc t ch rc ob eb r h
    simp only [run_kubectl_impl] at h
    split at h
    · exact Except.noConfusion h
    next toks hn =>
      iterate 6 (all_goals try split at h)
      all_goals
        first
          | exact Except.noConfusion h
          | (rw [Except.ok.injEq] at h; subst h; simp_all)
  · intro p args ns ctx kc rcf gcf t ch wd ind rc ob eb r h
    simp only [run_helm_impl] at h
    split at h
    · exact Except.noConfusion h
    next toks hn =>
      iterate 6 (all_goals try split at h)
      all_goals
        first
          | exact Except.noConfusion h
          | (rw [Except.ok.injEq] at h; subst h; simp_all)

/-- Witness for C6: a concrete call whose stdout is the JSON text
`{"k": 1}` (bytes 123,34,107,34,58,32,49,125), for which `json` is
populated, so both sides of the equivalence are true. -/
theorem C6_json_best_effort_witness :
    (ExecutionResult.mk ["/usr/bin/kubectl", "version"] 0 "\x7b\"k\": 1\x7d" ""
        (some (Jsonv.obj [("k", Jsonv.num "1")]))).json.isSome
      ↔ ("\x7b\"k\": 1\x7d" : String) ≠ "" ∧ looksLikeJson "\x7b\"k\": 1\x7d" = true
          ∧ (jsonLoads "\x7b\"k\": 1\x7d").isSome :=
  C6_json_best_effort.1 "/usr/bin/kubectl" (PyArgs.list ["version"]) none none none
    (some 60) false 0 [123, 34, 107, 34, 58, 32, 49, 125] [] _ rfl

/-- C7: For every executor call, if `check` is true and the process exits
non-zero the call fails with `CalledProcessError` carrying the exit code,
the command, stdout and stderr; if `check` is false an `ExecutionResult`
is always returned regardless of exit code; and when a timeout occurs the
`TimeoutExpired` failure is raised first, taking precedence over any
`check` handling. -/
theorem C7_check_and_timeout :
    (∀ (p : String) (args : PyArgs) (toks : List String) (ns ctx kc : Option String)
        (t : Option Rat) (rc : Int) (ob eb : List Nat) (so se : String),
      normalizeArgs args = some toks → pyDecodeOutput ob = some so →
      pyDecodeOutput eb = some se → rc ≠ 0 →
      run_kubectl_impl (some p) args ns ctx kc t true true (.completed rc ob eb)
        = .error (.calledProcessError rc
            (p :: toks ++ optFlag "--namespace" ns ++ optFlag "--context" ctx
              ++ optFlag "--kubeconfig" kc) so se)) ∧
    (∀ (p : String) (args : PyArgs) (toks : List String) (ns ctx kc : Option String)
        (t : Option Rat) (rc : Int) (ob eb : List Nat) (so se : String),
      normalizeArgs args = some toks → pyDecodeOutput ob = some so →
      pyDecodeOutput eb = some se →
      ∃ r, run_kubectl_impl (some p) args ns ctx kc t true false (.completed rc ob eb)
        = .ok r ∧ r.returncode = rc) ∧
    (∀ (p : String) (args : PyArgs) (toks : List String) (ns ctx kc : Option String)
        (t : Option Rat) (ch : Bool),
      normalizeArgs args = some toks →
      run_kubectl_impl (some p) args ns ctx kc t true ch .timedOut
        = .error (.timeoutExpired
            (p :: toks ++ optFlag "--namespace" ns ++ optFlag "--context" ctx
              ++ optFlag "--kubeconfig" kc) t)) ∧
    (∀ (p : String) (args : PyArgs) (toks : List String)
        (ns ctx kc rcf gcf : Option String) (t : Option Rat) (wd ind : Option String)
        (rc : Int) (ob eb : List Nat) (so se : String),
      normalizeArgs args = some toks → pyDecodeOutput ob = some so →
      pyDecodeOutput eb = some se → rc ≠ 0 →
      run_helm_impl (some p) args ns ctx kc rcf gcf t true true wd ind
          (.completed rc ob eb)
        = .error (.calledProcessError rc
            (p :: toks ++ optFlag "--namespace" ns ++ optFlag "--kube-context" ctx
              ++ optFlag "--kubeconfig" kc ++ optFlag "--repository-config" rcf
              ++ optFlag "--registry-config" gcf) so se)) ∧
    (∀ (p : String) (args : PyArgs) (toks : List String)
        (ns ctx kc rcf gcf : Option String) (t : Option Rat) (wd ind : Option String)
        (rc : Int) (ob eb : List Nat) (so se : String),
      normalizeArgs args = some toks → pyDecodeOutput ob = some so →
      pyDecodeOutput eb = some se →
      ∃ r, run_helm_impl (some p) args ns ctx kc rcf gcf t true false wd ind
        (.completed rc ob eb) = .ok r ∧ r.returncode = rc) ∧
    (∀ (p : String) (args : PyArgs) (toks : List String)
        (ns ctx kc rcf gcf : Option String) (t : Option Rat) (ch : Bool)
        (wd ind : Option String),
      normalizeArgs args = some toks →
      run_helm_impl (some p) args ns ctx kc rcf gcf t true ch wd ind .timedOut
        = .error (.timeoutExpired
            (p :: toks ++ optFlag "--namespace" ns ++ optFlag "--kube-context" ctx
              ++ optFlag "--kubeconfig" kc ++ optFlag "--repository-config" rcf
              ++ optFlag "--registry-config" gcf) t)) := by
  refine ⟨?_, ?_, ?_, ?_, ?_, ?_⟩
  · intro p args toks ns ctx kc t rc ob eb so se hn ho he hrc
    simp only [run_kubectl_impl, hn, ho, he]
    simp [hrc, List.append_assoc]
  · intro p args toks ns ctx kc t rc ob eb so se hn ho he
    have h1 : run_kubectl_impl (some p) args ns ctx kc t true false (.completed rc ob eb)
        = .ok { cmd := p :: toks ++ optFlag "--namespace" ns ++ optFlag "--context" ctx
                  ++ optFlag "--kubeconfig" kc,
                returncode := rc, stdout := so, stderr := se,
                json := if so ≠ "" ∧ looksLikeJson so = true then jsonLoads so else none } := by
      simp only [run_kubectl_impl, hn, ho, he]
      simp [List.append_assoc]
    exact ⟨_, h1, rfl⟩
  · intro p args toks ns ctx kc t ch hn
    simp [run_kubectl_impl, hn, List.append_assoc]
  · intro p args toks ns ctx kc rcf gcf t wd ind rc ob eb so se hn ho he hrc
    simp only [run_helm_impl, hn, ho, he]
    simp [hrc, List.append_assoc]
  · intro p args toks ns ctx kc rcf gcf t wd ind rc ob eb so se hn ho he
    have h1 : run_helm_impl (some p) args ns ctx kc rcf gcf t true false wd ind
          (.completed rc ob eb)
        = .ok { cmd := p :: toks ++ optFlag "--namespace" ns ++ optFlag "--kube-context" ctx
                  ++ optFlag "--kubeconfig" kc ++ optFlag "--repository-config" rcf
                  ++ optFlag "--registry-config" gcf,
                returncode := rc, stdout := so, stderr := se,
                json := if so ≠ "" ∧ looksLikeJson so = true then jsonLoads so else none } := by
      simp only [run_helm_impl, hn, ho, he]
      simp [List.append_assoc]
    exact ⟨_, h1, rfl⟩
  · intro p args toks ns ctx kc rcf gcf t ch wd ind hn
    simp [run_helm_impl, hn, List.append_assoc]

/-- Witness for C7: concrete calls exercising each conjunct — a failing
`kubectl` with `check` raising `CalledProcessError`, the same exit code
returned normally without `check`, and a timed-out call raising
`TimeoutExpired` even though `check` was requested. -/
theorem C7_check_and_timeout_witness :
    run_kubectl_impl (some "/usr/bin/kubectl") (PyArgs.list ["get", "x"]) none none none
        (some 60) true true (.completed 1 [] [])
      = .error (.calledProcessError 1 ["/usr/bin/kubectl", "get", "x"] "" "") ∧
    (∃ r, run_kubectl_impl (some "/usr/bin/kubectl") (PyArgs.list ["get", "x"]) none none
        none (some 60) true false (.completed 7 [] []) = .ok r ∧ r.returncode = 7) ∧
    run_kubectl_impl (some "/usr/bin/kubectl") (PyArgs.list ["get", "x"]) none none none
        (some 60) true true .timedOut
      = .error (.timeoutExpired ["/usr/bin/kubectl", "get", "x"] (some 60)) ∧
    run_helm_impl (some "/usr/bin/helm") (PyArgs.list ["list"]) none none none none none
        (some 60) true true none none (.completed 2 [] [])
      = .error (.calledProcessError 2 ["/usr/bin/helm", "list"] "" "") ∧
    (∃ r, run_helm_impl (some "/usr/bin/helm") (PyArgs.list ["list"]) none none none none
        none (some 60) true false none none (.completed 3 [] []) = .ok r
        ∧ r.returncode = 3) ∧
    run_helm_impl (some "/usr/bin/helm") (PyArgs.list ["list"]) none none none none none
        (some 60) true true none none .timedOut
      = .error (.timeoutExpired ["/usr/bin/helm", "list"] (some 60)) :=
  ⟨C7_check_and_timeout.1 "/usr/bin/kubectl" (PyArgs.list ["get", "x"]) ["get", "x"]
      none none none (some 60) 1 [] [] "" "" rfl rfl rfl (by decide),
   C7_check_and_timeout.2.1 "/usr/bin/kubectl" (PyArgs.list ["get", "x"]) ["get", "x"]
      none none none (some 60) 7 [] [] "" "" rfl rfl rfl,
   C7_check_and_timeout.2.2.1 "/usr/bin/kubectl" (PyArgs.list ["get", "x"]) ["get", "x"]
      none none none (some 60) true rfl,
   C7_check_and_timeout.2.2.2.1 "/usr/bin/helm" (PyArgs.list ["list"]) ["list"]
      none none none none none (some 60) none none 2 [] [] "" "" rfl rfl rfl (by decide),
   C7_check_and_timeout.2.2.2.2.1 "/usr/bin/helm" (PyArgs.list ["list"]) ["list"]
      none none none none none (some 60) none none 3 [] [] "" "" rfl rfl rfl,
   C7_check_and_timeout.2.2.2.2.2 "/usr/bin/helm" (PyArgs.list ["list"]) ["list"]
      none none none none none (some 60) true none none rfl⟩

/-- C8 counterexample: the claim says every byte sequence is decoded with
a lossy/best-effort fallback so the call always returns normally, but the
source uses strict `stdout_bytes.decode("utf-8")`: a process whose stdout
is the single invalid byte 0xFF makes `run_kubectl_impl` raise
`UnicodeDecodeError` instead of returning an `ExecutionResult`. -/
theorem C8_lossy_decode_counterexample :
    run_kubectl_impl (some "/usr/bin/kubectl") (PyArgs.list ["get", "pods"]) none none
        none (some 60) true false (.completed 0 [0xFF] [])
      = .error .unicodeDecodeError := rfl

/-- C8 (amended): with `capture_output` true, captured bytes are decoded
as strict UTF-8 — the call returns normally exactly when both streams
decode (with `check` false and no timeout), and any invalid byte sequence
raises `UnicodeDecodeError`, which propagates to the caller; there is no
lossy fallback. -/
theorem C8_strict_decode :
    (∀ (p : String) (args : PyArgs) (toks : List String) (ns ctx kc : Option String)
        (t : Option Rat) (rc : Int) (ob eb : List Nat),
      normalizeArgs args = some toks →
      (((∃ r, run_kubectl_impl (some p) args ns ctx kc t true false (.completed rc ob eb)
          = .ok r)
        ↔ (pyDecodeOutput ob).isSome ∧ (pyDecodeOutput eb).isSome) ∧
      (((pyDecodeOutput ob).isNone ∨ (pyDecodeOutput eb).isNone) →
        run_kubectl_impl (some p) args ns ctx kc t true false (.completed rc ob eb)
          = .error .unicodeDecodeError))) ∧
    (∀ (p : String) (args : PyArgs) (toks : List String)
        (ns ctx kc rcf gcf : Option String) (t : Option Rat) (wd ind : Option String)
        (rc : Int) (ob eb : List Nat),
      normalizeArgs args = some toks →
      (((∃ r, run_helm_impl (some p) args ns ctx kc rcf gcf t true false wd ind
          (.completed rc ob eb) = .ok r)
        ↔ (pyDecodeOutput ob).isSome ∧ (pyDecodeOutput eb).isSome) ∧
      (((pyDecodeOutput ob).isNone ∨ (pyDecodeOutput eb).isNone) →
        run_helm_impl (some p) args ns ctx kc rcf gcf t true false wd ind
          (.completed rc ob eb) = .error .unicodeDecodeError))) := by
  constructor
  · intro p args toks ns ctx kc t rc ob eb hn
    simp only [run_kubectl_impl, hn]
    cases ho : pyDecodeOutput ob <;> cases he : pyDecodeOutput eb <;> simp [ho, he]
  · intro p args toks ns ctx kc rcf gcf t wd ind rc ob eb hn
    simp only [run_helm_impl, hn]
    cases ho : pyDecodeOutput ob <;> cases he : pyDecodeOutput eb <;> simp [ho, he]

/-- Witness for C8 (amended): for the valid UTF-8 stdout bytes `"hi"`
(104, 105) the kubectl call returns normally, and both sides of the
equivalence hold. -/
theorem C8_strict_decode_witness :
    ((∃ r, run_kubectl_impl (some "/usr/bin/kubectl") (PyArgs.list ["get", "pods"]) none
        none none (some 60) true false (.completed 0 [104, 105] []) = .ok r)
      ↔ (pyDecodeOutput [104, 105]).isSome ∧ (pyDecodeOutput []).isSome) ∧
    (((pyDecodeOutput [104, 105]).isNone ∨ (pyDecodeOutput []).isNone) →
      run_kubectl_impl (some "/usr/bin/kubectl") (PyArgs.list ["get", "pods"]) none none
        none (some 60) true false (.completed 0 [104, 105] [])
        = .error .unicodeDecodeError) :=
  C8_strict_decode.1 "/usr/bin/kubectl" (PyArgs.list ["get", "pods"]) ["get", "pods"]
    none none none (some 60) 0 [104, 105] [] rfl

/-! ## Concrete fixtures for loop claims -/

/-- A concrete tool-call request, as the primary model would emit it. -/
def demoToolCall : ToolCall :=
  { id := "call_1", name := "run_kubectl",
    arguments := "\x7b\"args\": \"get pods\"\x7d" }

/-- A concrete successful execution result. -/
def demoResult : ExecutionResult :=
  { cmd := ["/usr/bin/kubectl", "get", "pods"], returncode := 0,
    stdout := "pod-a\npod-b\n", stderr := "", json := none }

/-- A primary model that requests the single tool call on every step. -/
def alwaysSingleCallModel : List Message → PrimaryResponse :=
  fun _ => .toolCalls [demoToolCall]

/-- A primary model that requests one tool call on the first step (when
only the user message is present) and answers in text afterwards. -/
def demoModel : List Message → PrimaryResponse := fun msgs =>
  if msgs.length ≤ 1 then .toolCalls [demoToolCall] else .text "done"

/-- A tool executor that always succeeds with `demoResult`. -/
def demoExecOk : ToolCall → Except ToolError ExecutionResult := fun _ => .ok demoResult

/-- A tool executor whose binary is absent from the search path: it raises
`FileNotFoundError` like `run_kubectl_impl` does. -/
def execBinaryMissing : ToolCall → Except ToolError ExecutionResult :=
  fun _ => .error (.fileNotFound "kubectl not found on PATH")

/-- An evaluator that returns valid structured output saying "do not stop". -/
def demoEvalNo : ToolCall → Except Unit EarlyStopEvaluation :=
  fun _ => .ok { should_stop := false, reasoning := "model should see the output" }

/-- An evaluator that returns valid structured output saying "stop". -/
def demoEvalYes : ToolCall → Except Unit EarlyStopEvaluation :=
  fun _ => .ok { should_stop := true, reasoning := "output alone answers it" }

/-- An evaluator whose response is not a valid `EarlyStopEvaluation`
payload, so `model_validate_json` raises. -/
def evalMalformed : ToolCall → Except Unit EarlyStopEvaluation := fun _ => .error ()

/-! ## Claims about the conversation loop -/

/-- C1: in every conversation turn, the early-stop evaluator model call is
made if and only if the step counter equals 1 and exactly one tool call
was requested that step; in every other step/count combination the loop
uses the default evaluation (`should_stop = false`, reasoning the fixed
sentinel) and makes no extra model call.  Stated over the trace of any
completed run from the initial state: every recorded evaluator call is at
(step 1, count 1); every default substitution is at some other
combination; and a first response with exactly one tool call always
records the evaluator call. -/
theorem C1_eval_iff_first_single_call (model : List Message → PrimaryResponse)
    (execTool : ToolCall → Except ToolError ExecutionResult)
    (evalModel : ToolCall → Except Unit EarlyStopEvaluation)
    (fuel : Nat) (messages : List Message) (res : Except TurnError String)
    (tr : List Ev)
    (h : chatLoop model execTool evalModel fuel 0 messages [] = some (res, tr)) :
    (∀ s c, Ev.evalModelCall s c ∈ tr → s = 1 ∧ c = 1) ∧
    (∀ s c, Ev.defaultEvalUsed s c ∈ tr → ¬(s = 1 ∧ c = 1)) ∧
    (∀ cs, model messages = .toolCalls cs → cs.length = 1 →
      Ev.evalModelCall 1 1 ∈ tr) := by
  refine ⟨?_, ?_, ?_⟩
  · intro s c hx
    rcases chatLoop_trace_new_ok model execTool evalModel fuel 0 messages [] res tr h
        _ hx with h1 | h1
    · exact absurd h1 (List.not_mem_nil _)
    · exact h1
  · intro s c hx
    rcases chatLoop_trace_new_ok model execTool evalModel fuel 0 messages [] res tr h
        _ hx with h1 | h1
    · exact absurd h1 (List.not_mem_nil _)
    · exact h1
  · intro cs hm hlen
    exact chatLoop_first_step_eval model execTool evalModel fuel messages res tr h
      cs hm hlen

/-- Witness for C1: a concrete two-step run (one single-call tool step,
then a text answer) whose trace is exactly one primary call, the
evaluator call at (1, 1), and the second primary call. -/
theorem C1_eval_iff_first_single_call_witness :
    (∀ s c, Ev.evalModelCall s c ∈
        [Ev.primaryModelCall 1, Ev.evalModelCall 1 1, Ev.primaryModelCall 2] →
      s = 1 ∧ c = 1) ∧
    (∀ s c, Ev.defaultEvalUsed s c ∈
        [Ev.primaryModelCall 1, Ev.evalModelCall 1 1, Ev.primaryModelCall 2] →
      ¬(s = 1 ∧ c = 1)) ∧
    (∀ cs, demoModel [Message.user "list pods"] = .toolCalls cs → cs.length = 1 →
      Ev.evalModelCall 1 1 ∈
        [Ev.primaryModelCall 1, Ev.evalModelCall 1 1, Ev.primaryModelCall 2]) :=
  C1_eval_iff_first_single_call demoModel demoExecOk demoEvalNo 2
    [Message.user "list pods"] (.ok "done")
    [Ev.primaryModelCall 1, Ev.evalModelCall 1 1, Ev.primaryModelCall 2] rfl

/-- C2: whenever the early-stop evaluation yields `should_stop = true`
(only possible on the first step with a single tool call, the only point
the evaluator runs), the loop terminates immediately, the turn's final
output is exactly the raw stdout of the first and only tool call's
`ExecutionResult` wrapped in a fenced code block, and the primary model is
invoked exactly once that turn (the trace holds a single primary call). -/
theorem C2_early_stop_fenced_output (model : List Message → PrimaryResponse)
    (execTool : ToolCall → Except ToolError ExecutionResult)
    (evalModel : ToolCall → Except Unit EarlyStopEvaluation)
    (fuel : Nat) (messages : List Message) (tc : ToolCall) (r : ExecutionResult)
    (reason : String)
    (hm : model messages = .toolCalls [tc])
    (hk : knownToolName tc.name = true)
    (hexec : execTool tc = .ok r)
    (heval : evalModel tc = .ok { should_stop := true, reasoning := reason }) :
    chatLoop model execTool evalModel (fuel + 1) 0 messages []
      = some (.ok ("```\n" ++ r.stdout ++ "\n```"),
              [Ev.primaryModelCall 1, Ev.evalModelCall 1 1]) := by
  simp [chatLoop, hm, handle_tool_call, hk, hexec, heval, firstResultStdout,
    fencedCodeBlock]

/-- Witness for C2: a concrete early-stopped turn returning the fenced
stdout `pod-a\npod-b\n` after exactly one primary model call. -/
theorem C2_early_stop_fenced_output_witness :
    chatLoop alwaysSingleCallModel demoExecOk demoEvalYes 1 0
        [Message.user "list pods"] []
      = some (.ok ("```\n" ++ demoResult.stdout ++ "\n```"),
              [Ev.primaryModelCall 1, Ev.evalModelCall 1 1]) :=
  C2_early_stop_fenced_output alwaysSingleCallModel demoExecOk demoEvalYes 0
    [Message.user "list pods"] demoToolCall demoResult "output alone answers it"
    rfl rfl rfl rfl

/-- C3 counterexample: the claim says a `BinaryNotFound` executor failure
is fatal for that tool call only — surfaced to the model as the tool's
error text, with the loop continuing.  In the source `handle_tool_call`
has no exception handling and the loop never catches: the raised
`FileNotFoundError` aborts the whole turn.  Concretely, with the binary
absent the run ends in an error after exactly one primary model call, no
tool-result message, and no re-invocation of the model. -/
theorem C3_executor_failure_aborts_turn_counterexample :
    chatLoop alwaysSingleCallModel execBinaryMissing demoEvalNo 5 0
        [Message.user "list pods"] []
      = some (.error (.toolFailure (.fileNotFound "kubectl not found on PATH")),
              [Ev.primaryModelCall 1, Ev.evalModelCall 1 1]) := rfl

/-- C3 (amended): an executor failure (`BinaryNotFound`, `Timeout`,
`NonZeroExit` under `check`) raised while handling a step's tool calls is
fatal for the whole turn: the exception propagates out of
`handle_tool_call` through the join and aborts the turn with that error;
the failure is not appended to the conversation and the primary model is
not re-invoked (exactly one more primary call is recorded). -/
theorem C3_executor_failure_aborts_turn (model : List Message → PrimaryResponse)
    (execTool : ToolCall → Except ToolError ExecutionResult)
    (evalModel : ToolCall → Except Unit EarlyStopEvaluation)
    (fuel stepPrev : Nat) (messages : List Message) (trace : List Ev)
    (calls : List ToolCall) (err : TurnError)
    (hm : model messages = .toolCalls calls)
    (hh : handle_tool_call execTool calls = .error err) :
    ∃ ev, chatLoop model execTool evalModel (fuel + 1) stepPrev messages trace
      = some (.error err, trace ++ [Ev.primaryModelCall (stepPrev + 1), ev]) := by
  by_cases hc : stepPrev + 1 = 1 ∧ calls.length = 1
  · exact ⟨Ev.evalModelCall (stepPrev + 1) calls.length,
      by simp only [chatLoop, hm, if_pos hc, hh]⟩
  · exact ⟨Ev.defaultEvalUsed (stepPrev + 1) calls.length,
      by simp only [chatLoop, hm, if_neg hc, hh]⟩

/-- Witness for C3 (amended): the concrete missing-binary run aborts with
the `FileNotFoundError` after one primary call. -/
theorem C3_executor_failure_aborts_turn_witness :
    ∃ ev, chatLoop alwaysSingleCallModel execBinaryMissing demoEvalNo 1 0
        [Message.user "q"] []
      = some (.error (.toolFailure (.fileNotFound "kubectl not found on PATH")),
              [Ev.primaryModelCall 1, ev]) :=
  C3_executor_failure_aborts_turn alwaysSingleCallModel execBinaryMissing demoEvalNo
    0 0 [Message.user "q"] [] [demoToolCall]
    (.toolFailure (.fileNotFound "kubectl not found on PATH")) rfl rfl

/-- C4 counterexample: the claim says an invalid evaluator payload is
confined to that evaluation, with the loop substituting the default
non-stopping evaluation.  In the source the pydantic `ValidationError`
raised by `model_validate_json` propagates through `asyncio.gather` with
no handler: the turn aborts.  Concretely, with tools succeeding and the
evaluator returning malformed output, the run ends in
`malformedEvaluatorOutput` after one primary call instead of proceeding. -/
theorem C4_malformed_eval_aborts_turn_counterexample :
    chatLoop alwaysSingleCallModel demoExecOk evalMalformed 5 0 [Message.user "q"] []
      = some (.error TurnError.malformedEvaluatorOutput,
              [Ev.primaryModelCall 1, Ev.evalModelCall 1 1]) := rfl

/-- C4 (amended): an evaluator model response that is not a valid
`EarlyStopEvaluation` payload aborts the whole turn: the validation
exception propagates through the join, the turn ends with
`malformedEvaluatorOutput` after exactly one primary model call, and no
default evaluation is substituted. -/
theorem C4_malformed_eval_aborts_turn (model : List Message → PrimaryResponse)
    (execTool : ToolCall → Except ToolError ExecutionResult)
    (evalModel : ToolCall → Except Unit EarlyStopEvaluation)
    (fuel : Nat) (messages : List Message) (tc : ToolCall) (r : ExecutionResult)
    (hm : model messages = .toolCalls [tc])
    (hk : knownToolName tc.name = true)
    (hexec : execTool tc = .ok r)
    (heval : evalModel tc = .error ()) :
    chatLoop model execTool evalModel (fuel + 1) 0 messages []
      = some (.error TurnError.malformedEvaluatorOutput,
              [Ev.primaryModelCall 1, Ev.evalModelCall 1 1]) := by
  simp [chatLoop, hm, handle_tool_call, hk, hexec, heval]

/-- Witness for C4 (amended): the concrete malformed-evaluator run aborts
with `malformedEvaluatorOutput`. -/
theorem C4_malformed_eval_aborts_turn_witness :
    chatLoop alwaysSingleCallModel demoExecOk evalMalformed 1 0 [Message.user "q"] []
      = some (.error TurnError.malformedEvaluatorOutput,
              [Ev.primaryModelCall 1, Ev.evalModelCall 1 1]) :=
  C4_malformed_eval_aborts_turn alwaysSingleCallModel demoExecOk evalMalformed 0
    [Message.user "q"] demoToolCall demoResult rfl rfl rfl rfl

/-- Key lemma for C9: with a primary model that requests the same single
(registered, succeeding) tool call on every step and an evaluator that
never stops, the loop is still running after any number of iterations:
there is no step limit and no `LoopExceeded` error in the code. -/
theorem chatLoop_always_toolCalls_never_terminates
    (model : List Message → PrimaryResponse)
    (execTool : ToolCall → Except ToolError ExecutionResult)
    (evalModel : ToolCall → Except Unit EarlyStopEvaluation)
    (tc : ToolCall) (r : ExecutionResult) (s : String)
    (hmodel : ∀ msgs, model msgs = .toolCalls [tc])
    (hk : knownToolName tc.name = true)
    (hexec : execTool tc = .ok r)
    (heval : evalModel tc = .ok { should_stop := false, reasoning := s }) :
    ∀ (fuel stepPrev : Nat) (messages : List Message) (trace : List Ev),
      chatLoop model execTool evalModel fuel stepPrev messages trace = none := by
  intro fuel
  induction fuel with
  | zero =>
    intro stepPrev messages trace
    simp [chatLoop]
  | succ fuel ih =>
    intro stepPrev messages trace
    simp only [chatLoop, hmodel messages]
    by_cases hc : stepPrev + 1 = 1 ∧ ([tc] : List ToolCall).length = 1
    · simp only [if_pos hc, handle_tool_call, hk, if_true, hexec, List.headI, heval]
      simp [ih]
    · simp only [if_neg hc, handle_tool_call, hk, if_true, hexec]
      simp [default_early_stop_evaluation, ih]

/-- The demo always-tool-calling run never terminates: after any number
of loop iterations, `chatLoop` is still running (`none`) — it has neither
produced an answer nor any step-limit error. -/
def demoRunNeverTerminates : Prop :=
  ∀ fuel : Nat, chatLoop alwaysSingleCallModel demoExecOk demoEvalNo fuel 0
    [Message.user "q"] [] = none

/-- C9 counterexample: the claim says the conversation loop terminates for
every sequence of primary-model responses thanks to a maximum-step-count
guard producing `LoopExceeded`.  The source's `while not done:` has no
such guard: at the concrete input — a primary model that requests one
registered, succeeding tool call on every step, with a never-stopping
evaluator — the loop runs forever and never produces any step-limit
error, negating the claimed termination. -/
theorem C9_loop_guard_counterexample : demoRunNeverTerminates :=
  fun fuel =>
    chatLoop_always_toolCalls_never_terminates alwaysSingleCallModel demoExecOk
      demoEvalNo demoToolCall demoResult "model should see the output"
      (fun _ => rfl) rfl rfl rfl fuel 0 [Message.user "q"] []

/-- C9 (amended): the code imposes no step limit and defines no
`LoopExceeded` error; the loop terminates only when the primary model
returns a response without tool calls or the early-stop evaluation fires.
A model that requests a (registered, succeeding) tool call on every step,
with a never-stopping evaluator, keeps the loop running forever: after
any number of iterations it has not terminated. -/
theorem C9_no_loop_guard (model : List Message → PrimaryResponse)
    (execTool : ToolCall → Except ToolError ExecutionResult)
    (evalModel : ToolCall → Except Unit EarlyStopEvaluation)
    (tc : ToolCall) (r : ExecutionResult) (s : String)
    (hmodel : ∀ msgs, model msgs = .toolCalls [tc])
    (hk : knownToolName tc.name = true)
    (hexec : execTool tc = .ok r)
    (heval : evalModel tc = .ok { should_stop := false, reasoning := s }) :
    ∀ (fuel stepPrev : Nat) (messages : List Message) (trace : List Ev),
      chatLoop model execTool evalModel fuel stepPrev messages trace = none :=
  chatLoop_always_toolCalls_never_terminates model execTool evalModel tc r s
    hmodel hk hexec heval

/-- Witness for C9 (amended): after three iterations of the concrete
always-tool-calling run, the loop has not terminated. -/
theorem C9_no_loop_guard_witness :
    chatLoop alwaysSingleCallModel demoExecOk demoEvalNo 3 0
      [Message.user "q"] [] = none :=
  C9_no_loop_guard alwaysSingleCallModel demoExecOk demoEvalNo demoToolCall demoResult
    "model should see the output" (fun _ => rfl) rfl rfl rfl 3 0
    [Message.user "q"] []

/-- C10: the Grafana API tool never raises — every failure path (HTTP
client error, request timeout, any other exception) is mapped to a
returned `ExecutionResult` with returncode 1, empty stdout and a
diagnostic stderr string, and every HTTP response with status ≥ 400 is
returned (not raised) with returncode equal to the status and stderr
starting with `HTTP <status>`.  The embedding is a total function: each
`except` clause of the source is one `HttpOutcome` constructor. -/
theorem C10_grafana_never_raises :
    (∀ (gurl endpoint method : String) (params json_data : Option String)
        (t : Option Rat) (msg : String),
      grafana_api_request_impl gurl endpoint method params json_data t (.clientError msg)
        = { cmd := grafanaCmd method (grafanaUrl gurl endpoint) params json_data,
            returncode := 1, stdout := "", stderr := "HTTP Client Error: " ++ msg,
            json := none }) ∧
    (∀ (gurl endpoint method : String) (params json_data : Option String)
        (t : Option Rat),
      grafana_api_request_impl gurl endpoint method params json_data t .timedOut
        = { cmd := grafanaCmd method (grafanaUrl gurl endpoint) params json_data,
            returncode := 1, stdout := "",
            stderr := "Request timeout after " ++ timeoutRepr t ++ " seconds",
            json := none }) ∧
    (∀ (gurl endpoint method : String) (params json_data : Option String)
        (t : Option Rat) (msg : String),
      grafana_api_request_impl gurl endpoint method params json_data t (.otherError msg)
        = { cmd := grafanaCmd method (grafanaUrl gurl endpoint) params json_data,
            returncode := 1, stdout := "", stderr := "Unexpected error: " ++ msg,
            json := none }) ∧
    (∀ (gurl endpoint method : String) (params json_data : Option String)
        (t : Option Rat) (status : Nat) (reason body : String) (ctJson : Bool),
      400 ≤ status →
      (grafana_api_request_impl gurl endpoint method params json_data t
          (.response status reason body ctJson)).returncode = (status : Int) ∧
      (grafana_api_request_impl gurl endpoint method params json_data t
          (.response status reason body ctJson)).stdout = body ∧
      ∃ rest, (grafana_api_request_impl gurl endpoint method params json_data t
          (.response status reason body ctJson)).stderr
        = "HTTP " ++ Nat.repr status ++ rest) := by
  refine ⟨fun _ _ _ _ _ _ _ => rfl, fun _ _ _ _ _ _ => rfl, fun _ _ _ _ _ _ _ => rfl,
    ?_⟩
  intro gurl endpoint method params json_data t status reason body ctJson hst
  refine ⟨?_, ?_, ?_⟩
  · simp [grafana_api_request_impl, hst]
  · simp [grafana_api_request_impl]
  · refine ⟨?_, ?_⟩
    · exact ": " ++ reason ++
        (match grafanaParseJson body ctJson with
         | some (.obj members) =>
           (match jsonObjLookup members "message" with
            | some v => " - " ++ jsonvDisplay v
            | none =>
              match jsonObjLookup members "error" with
              | some v => " - " ++ jsonvDisplay v
              | none => "")
         | _ => "")
    · simp [grafana_api_request_impl, hst, String.append_assoc]

/-- Witness for C10's hypothesis-bearing conjunct: a 404 response is
returned with returncode 404, the body as stdout, and an
`HTTP 404`-prefixed stderr. -/
theorem C10_grafana_never_raises_witness :
    (grafana_api_request_impl "https://g.example.com" "/api/org" "get" none none
        (some 60) (.response 404 "Not Found" "missing" false)).returncode = (404 : Int) ∧
    (grafana_api_request_impl "https://g.example.com" "/api/org" "get" none none
        (some 60) (.response 404 "Not Found" "missing" false)).stdout = "missing" ∧
    ∃ rest, (grafana_api_request_impl "https://g.example.com" "/api/org" "get" none none
        (some 60) (.response 404 "Not Found" "missing" false)).stderr
      = "HTTP " ++ Nat.repr 404 ++ rest :=
  C10_grafana_never_raises.2.2.2 "https://g.example.com" "/api/org" "get" none none
    (some 60) 404 "Not Found" "missing" false (by decide)

end K8sHelper
